import Mathlib

/-!
Verification of the multi-step prediction pipeline of the
Data_Retrieval_Service repository: a shallow embedding of the
stage-orchestration routes (app/routes/multistep_prediction_routes.py),
the services they call (app/services/stock_service.py,
app/services/llm_service.py, app/services/llm_prompts.py,
app/services/chat_history_service.py), and theorems settling the
specification claims about them.

Conventions of the embedding:
* Python dicts with optional keys become structures with Option fields
  (a missing key is none); dict.get with a default becomes Option.getD.
* External collaborators (vector search, Finnhub, the chat-history store)
  are passed in as explicit result values; the order in which the news
  stage consults them is recorded in a call trace.
* Machine floats never influence control flow in the verified paths;
  prices are carried as integers and polarity values as integer
  hundredths, with the fixed 2-decimal rendering of the source
  reproduced on that grid.
-/

/-! ## Python string helpers used by the response parser -/

/-- The Python whitespace class \s, also the default str.strip charset. -/
def is_py_space (c : Char) : Bool :=
  c == ' ' || c == '\t' || c == '\n' || c == '\r' || c == '\x0b' || c == '\x0c'

/-- str.strip(): remove leading and trailing whitespace. -/
def py_strip (l : List Char) : List Char :=
  ((l.dropWhile is_py_space).reverse.dropWhile is_py_space).reverse

/-- Case-insensitive literal prefix test (re.IGNORECASE literal match). -/
def is_prefix_ci : List Char → List Char → Bool
  | [], _ => true
  | _ :: _, [] => false
  | p :: ps, c :: cs => (p.toLower == c.toLower) && is_prefix_ci ps cs

/-- Leftmost case-insensitive occurrence of pat; returns the suffix that
follows the matched literal, as re.search does when scanning start
positions left to right. -/
def find_ci (pat : List Char) : List Char → Option (List Char)
  | [] => if pat.isEmpty then some [] else none
  | c :: rest =>
    if is_prefix_ci pat (c :: rest) then some ((c :: rest).drop pat.length)
    else find_ci pat rest

/-- Split at the leftmost case-insensitive occurrence of pat: the text
before it and the suffix after it. -/
def split_at_ci (pat : List Char) : List Char → Option (List Char × List Char)
  | [] => if pat.isEmpty then some ([], []) else none
  | c :: rest =>
    if is_prefix_ci pat (c :: rest) then some ([], (c :: rest).drop pat.length)
    else
      match split_at_ci pat rest with
      | none => none
      | some (pre, post) => some (c :: pre, post)

/-- Content of a lazily captured DOTALL group bounded by the lookahead
for a newline followed by an opening bracket, or end of text. -/
def take_until_next_block : List Char → List Char
  | [] => []
  | '\n' :: '[' :: _ => []
  | c :: rest => c :: take_until_next_block rest

/-- The optional colon right after the closing bracket in the
extract_block pattern. -/
def drop_colon : List Char → List Char
  | ':' :: rest => rest
  | l => l

/-! ## Narrative parser (multistep_prediction_routes.py lines 781-815) -/

/-- Embeds extract_block (lines 783-787): leftmost case-insensitive match
of the bracketed label, an optional colon, greedy whitespace, then a lazy
DOTALL capture bounded by the next newline-bracket or end of text, with
group(1).strip(); the empty string when there is no match. -/
def extract_block (label : String) (text : String) : String :=
  match find_ci ("[" ++ label ++ "]").data text.data with
  | none => ""
  | some rest =>
    String.mk (py_strip (take_until_next_block ((drop_colon rest).dropWhile is_py_space)))

/-- One attempt of the nested block pattern of
extract_prediction_analysis_block at the suffix that follows an
occurrence of the opening literal: greedy whitespace, the literal for the
price sub-label, a lazy capture up to the analysis sub-label, greedy
whitespace, then a lazy capture bounded as in extract_block; both groups
stripped. -/
def pa_attempt (rest : List Char) : Option (String × String) :=
  let r1 := rest.dropWhile is_py_space
  if is_prefix_ci "Prediction Price:".data r1 then
    let r2 := r1.drop ("Prediction Price:".length)
    match split_at_ci "Analysis:".data r2 with
    | none => none
    | some (g1, r3) =>
      some (String.mk (py_strip g1),
            String.mk (py_strip (take_until_next_block (r3.dropWhile is_py_space))))
  else none

/-- re.search tries successive occurrences of the opening literal until
one attempt matches. The fuel bounds the occurrences tried; it is always
sufficient because the suffix strictly shrinks at every step. -/
def extract_pa_many (pat : List Char) : Nat → List Char → Option (String × String)
  | 0, _ => none
  | Nat.succ fuel, s =>
    match find_ci pat s with
    | none => none
    | some rest =>
      match pa_attempt rest with
      | some r => some r
      | none => extract_pa_many pat fuel rest

/-- Embeds extract_prediction_analysis_block (lines 789-799): the
prediction-price and analysis groups, or a pair of empty strings when the
pattern does not match. -/
def extract_prediction_analysis_block (text : String) : String × String :=
  match extract_pa_many "[Prediction & Analysis]".data (text.length + 1) text.data with
  | some r => r
  | none => ("", "")

/-- The dictionary shapes parse_llm_response can return: the four-section
dictionary, or the single-key full_response fallback. -/
inductive ParsedResponse where
  | sections (prediction_price analysis positive_developments potential_concerns : String)
  | fullResponse (text : String)
deriving DecidableEq

/-- dict.get on a parse result: exactly the keys present in each shape. -/
def ParsedResponse.get : ParsedResponse → String → Option String
  | .sections p a pos con, key =>
    if key = "prediction_price" then some p
    else if key = "analysis" then some a
    else if key = "positive_developments" then some pos
    else if key = "potential_concerns" then some con
    else none
  | .fullResponse t, key =>
    if key = "full_response" then some t else none

/-- Embeds parse_llm_response (lines 781-815): build the four fields from
the two extraction helpers and fall back to full_response when none of
them is a non-empty string, mirroring the not-any check on the values. -/
def parse_llm_response (response : String) : ParsedResponse :=
  let pa := extract_prediction_analysis_block response
  let pos := extract_block "Positive Developments" response
  let con := extract_block "Potential Concerns" response
  if pa.1 = "" ∧ pa.2 = "" ∧ pos = "" ∧ con = "" then
    .fullResponse response
  else
    .sections pa.1 pa.2 pos con

/-- The result dictionary of process_followup_response (lines 883-916);
the timestamp field carries no verified content and is omitted. -/
structure FollowupProcessed where
  status : String
  symbol : String
  user_query : String
  llm_response : String
  sections : ParsedResponse
deriving DecidableEq

/-- Embeds process_followup_response (lines 883-916). -/
def process_followup_response (symbol user_query llm_response : String) : FollowupProcessed :=
  { status := "success", symbol := symbol, user_query := user_query,
    llm_response := llm_response, sections := parse_llm_response llm_response }

/-- The JSON body returned by the followup endpoint (lines 1026-1033). -/
structure FollowupResponse where
  status : String
  symbol : String
  user_query : String
  llm_response : String
  sections : ParsedResponse
  target_price : String
deriving DecidableEq

/-- Embeds the response built by followup_prediction (lines 1026-1033):
the target_price field is sections.get of the target-price key with the
empty string as default. -/
def followup_prediction_response (symbol user_query llm_response : String) : FollowupResponse :=
  { status := "success", symbol := symbol, user_query := user_query,
    llm_response := llm_response,
    sections := parse_llm_response llm_response,
    target_price := ((parse_llm_response llm_response).get "target_price").getD "" }

/-! ## Generic helpers: substring testing and stable sorting -/

/-- Case-sensitive substring occurrence over character lists. -/
def contains_chars (pat : List Char) : List Char → Bool
  | [] => pat.isEmpty
  | c :: rest => (pat.isPrefixOf (c :: rest)) || contains_chars pat rest

/-- Case-sensitive substring occurrence over strings. -/
def contains_sub (pat s : String) : Bool :=
  contains_chars pat.data s.data

/-- Stable insertion of an element in front of the first list member it
should precede. -/
def insert_by (le : α → α → Bool) (a : α) : List α → List α
  | [] => [a]
  | b :: bs => if le a b then a :: b :: bs else b :: insert_by le a bs

/-- Stable sort, modelling Python sorted with a key and reverse flag via
the supplied comparison. -/
def sort_by (le : α → α → Bool) : List α → List α
  | [] => []
  | a :: as => insert_by le a (sort_by le as)

/-! ## News data model and the news stage retrieval chain
(multistep_prediction_routes.py lines 371-547) -/

/-- A news article dict; every key the news stage probes is optional. -/
structure Article where
  title : Option String
  published : Option String
  source : Option String
  link : Option String
  url : Option String
  summary : Option String
deriving DecidableEq

/-- Python truthiness of dict.get on a string field: key present with a
non-empty value. -/
def truthy_str : Option String → Bool
  | none => false
  | some s => s ≠ ""

/-- One formatted article of the news response (lines 502-516). -/
structure FormattedArticle where
  title : String
  published : String
  source : String
  link : String
  summary : String
deriving DecidableEq

/-- Embeds the per-article formatting loop (lines 502-516), including the
link fallback from link to url to the placeholder. -/
def format_article (a : Article) : FormattedArticle :=
  let link :=
    if truthy_str a.link ∧ a.link ≠ some "#" then a.link.getD "#"
    else if truthy_str a.url then a.url.getD "#"
    else "#"
  { title := a.title.getD "No title",
    published := a.published.getD "",
    source := a.source.getD "Unknown",
    link := link,
    summary := a.summary.getD "No summary available" }

/-- A service result dict: a status string and an optional data list
(the data key is absent from the error dicts of both the news service and
the Finnhub service). -/
structure Svc where
  status : String
  data : Option (List Article)
deriving DecidableEq

/-- The external calls the news stage can make, in order. -/
inductive NewsCall where
  | semantic
  | finnhubFetch (weeks : Nat)
deriving DecidableEq

/-- The user-facing message chosen from the data source (lines 521-527). -/
def news_message (data_source symbol : String) : String :=
  if data_source = "semantic_search" then
    "Articles semantically relevant to your query about " ++ symbol
  else if data_source = "finnhub_api" then
    "Recent news articles for " ++ symbol ++ " from Finnhub API"
  else
    "Failed to fetch news articles for " ++ symbol

/-- sorted by published date, newest first (lines 494-499). -/
def sort_by_published_desc (l : List Article) : List Article :=
  sort_by (fun a b => decide ((b.published.getD "") ≤ (a.published.getD ""))) l

/-- The news stage response body (lines 484-540): semantic results keep
their order, other non-empty results are sorted newest first, at most ten
articles are formatted; the chosen articles are also written to the stage
record, and the trace of collaborator calls is recorded. -/
structure NewsResponse where
  status : String
  message : String
  data_source : String
  articles : List FormattedArticle
  stored : List Article
  calls : List NewsCall
deriving DecidableEq

/-- Builds the news stage response from the chosen source (lines 484-540). -/
def news_response (symbol data_source : String) (articles_to_use : List Article)
    (calls : List NewsCall) : NewsResponse :=
  let sorted_articles :=
    if data_source ≠ "semantic_search" ∧ articles_to_use ≠ [] then
      sort_by_published_desc articles_to_use
    else articles_to_use
  { status := "success",
    message := news_message data_source symbol,
    data_source := data_source,
    articles := (sorted_articles.take 10).map format_article,
    stored := articles_to_use,
    calls := calls }

/-- Step success test of the semantic passes (lines 417 and 439): status
is success and at least one item came back. -/
def sem_ok (r : Svc) : Bool :=
  r.status == "success" && decide (1 ≤ (r.data.getD []).length)

/-- Python truthiness of the data key of a Finnhub result: present and a
non-empty list. -/
def truthy_data (r : Svc) : Bool :=
  match r.data with
  | some (_ :: _) => true
  | _ => false

/-- The Finnhub pass test (lines 431 and 461): status success and truthy
data. -/
def fin_ok (r : Svc) : Bool :=
  r.status == "success" && truthy_data r

/-- Embeds the retrieval fallback chain of fetch_news (lines 406-540).
sem1 and sem2 are the results of the first and the retried semantic
search, fin2 the two-week Finnhub ingestion of flow step 2, fin1 the
one-week direct fetch of flow step 3. Control flow: the first semantic
pass short-circuits on success; otherwise Finnhub is asked for two weeks,
the semantic search is retried only when that ingestion returned truthy
data, and flow step 3 reuses the ingested data when its data key is
truthy, refetching one week otherwise; when everything is empty the
response carries the none data source and an empty article list. -/
def fetch_news_core (symbol : String) (sem1 sem2 fin2 fin1 : Svc) : NewsResponse :=
  if sem_ok sem1 then
    news_response symbol "semantic_search" (sem1.data.getD []) [NewsCall.semantic]
  else if fin_ok fin2 then
    if sem_ok sem2 then
      news_response symbol "semantic_search" (sem2.data.getD [])
        [NewsCall.semantic, NewsCall.finnhubFetch 2, NewsCall.semantic]
    else
      news_response symbol "finnhub_api" (fin2.data.getD [])
        [NewsCall.semantic, NewsCall.finnhubFetch 2, NewsCall.semantic]
  else
    if truthy_data fin2 then
      news_response symbol "finnhub_api" (fin2.data.getD [])
        [NewsCall.semantic, NewsCall.finnhubFetch 2]
    else if fin_ok fin1 then
      news_response symbol "finnhub_api" (fin1.data.getD [])
        [NewsCall.semantic, NewsCall.finnhubFetch 2, NewsCall.finnhubFetch 1]
    else
      news_response symbol "none" []
        [NewsCall.semantic, NewsCall.finnhubFetch 2, NewsCall.finnhubFetch 1]

/-- A collaborator result with a successful status and no items. -/
def empty_svc : Svc := { status := "success", data := some [] }

/-! ## Stage record, ephemeral store and the stage sequencer
(multistep_prediction_routes.py lines 30-34, 238-276, 278-779) -/

/-- The historical price payload stored by stage 1 (stock_service.py
lines 74-79): parallel date, price and volume lists. -/
structure HistData where
  dates : List String
  prices : List Int
  volumes : List Nat
deriving DecidableEq

/-- One Reddit post as consumed by the prompt builder (llm_service.py
lines 541-565); polarity is carried in integer hundredths. -/
structure RedditPost where
  title : Option String
  score : Option Int
  created : Option String
  polarity : Option Int
  body : Option String
deriving DecidableEq

/-- The aggregate sentiment metrics probed by the prompt builder
(llm_service.py lines 530-538); values in integer hundredths. -/
structure SentimentSummary where
  avg_post_polarity : Option Int
  avg_post_subjectivity : Option Int
  avg_comment_polarity : Option Int
  avg_comment_subjectivity : Option Int
  post_count : Option Nat
  comment_count : Option Nat
deriving DecidableEq

/-- The social payload stored by stage 3. -/
structure SocialData where
  posts : List RedditPost
  sentiment_summary : Option SentimentSummary
deriving DecidableEq

/-- The accumulating stage record cached between steps (lines 326-331,
485, 583): the historical, news and social keys are present exactly when
the corresponding stage has written them. -/
structure Record where
  symbol : String
  user_query : String
  timestamp : String
  historical : Option HistData
  news : Option (List Article)
  social : Option SocialData
deriving DecidableEq

/-- The ephemeral stage store: key to optional record. -/
abbrev Cache := String → Option Record

/-- cache.set for one key. -/
def cache_set (c : Cache) (k : String) (r : Record) : Cache :=
  fun q => if q = k then some r else c q

/-- Embeds get_cache_key (lines 32-34). -/
def get_cache_key (user_id symbol : String) : String :=
  "multistep_prediction:" ++ user_id ++ ":" ++ symbol

/-- The store effect of the historical stage (lines 324-332): a fresh
record with only the historical key, replacing whatever was cached. -/
def fetch_historical_store (c : Cache) (user_id symbol user_query timestamp : String)
    (hist : HistData) : Cache :=
  cache_set c (get_cache_key user_id symbol)
    { symbol := symbol, user_query := user_query, timestamp := timestamp,
      historical := some hist, news := none, social := none }

/-- The store effect of the news stage (lines 484-486): requires the
record from step 1 and adds the chosen articles under the news key. -/
def fetch_news_store (c : Cache) (user_id symbol : String)
    (articles_to_use : List Article) : Cache :=
  match c (get_cache_key user_id symbol) with
  | none => c
  | some step_data =>
    cache_set c (get_cache_key user_id symbol) { step_data with news := some articles_to_use }

/-- The store effect of the social stage (lines 568-584): requires the
record from the previous steps and adds the social key. -/
def fetch_social_store (c : Cache) (user_id symbol : String)
    (social_data : SocialData) : Cache :=
  match c (get_cache_key user_id symbol) with
  | none => c
  | some step_data =>
    cache_set c (get_cache_key user_id symbol) { step_data with social := some social_data }

/-- Embeds the validation gate of generate_result (lines 671-698): the
missing-record message, then one dedicated client error per absent field,
in the order historical, news, social. -/
def generate_result_gate : Option Record → Except String Record
  | none => .error "Analysis data not found or expired. Please restart the analysis."
  | some step_data =>
    if step_data.historical.isNone then
      .error "Missing historical data. Please complete all steps."
    else if step_data.news.isNone then
      .error "Missing news data. Please complete all steps."
    else if step_data.social.isNone then
      .error "Missing social media data. Please complete all steps."
    else .ok step_data

/-! ## Historical price lookback (stock_service.py lines 39-59,
multistep_prediction_routes.py lines 296-311) -/

/-- Embeds the period-to-window chain of get_historical_prices
(stock_service.py lines 42-59): the number of days subtracted from today
to form the start date, with the one-year default of the final else. -/
def get_historical_prices_start_days (period : String) : Nat :=
  if period = "1d" then 1
  else if period = "5d" then 5
  else if period = "1mo" ∨ period = "1m" then 30
  else if period = "3mo" ∨ period = "3m" then 90
  else if period = "6mo" ∨ period = "6m" then 180
  else if period = "1y" then 365
  else if period = "2y" then 730
  else if period = "5y" then 1825
  else 365

/-- The period literal the historical stage passes (route line 307). -/
def multistep_historical_period : String := "3w"

/-- The date filter data.index >= start_date_str (stock_service.py line
65), with calendar dates abstracted to day ordinals so that the ISO
string comparison of the source becomes numeric comparison. -/
def lookback_filter (today_day start_days : Nat) (rows : List (Nat × Int)) : List (Nat × Int) :=
  rows.filter (fun row => decide (today_day - start_days ≤ row.fst))

/-! ## Context builder: chat history and the multi-step prompt
(chat_history_service.py lines 60-83, llm_service.py lines 377-570,
llm_prompts.py lines 6-76) -/

/-- Fixed-point rendering of a 2-decimal float for an exact integer
value, as produced by the source format specifier. -/
def fmt2 (n : Int) : String := toString n ++ ".00"

/-- Fixed-point rendering of a 2-decimal float for a value carried in
integer hundredths. -/
def fmt_centi (n : Int) : String :=
  let m := n.natAbs
  (if n < 0 then "-" else "") ++ toString (m / 100) ++ "." ++
    (if m % 100 < 10 then "0" else "") ++ toString (m % 100)

/-- Thousands grouping on a reversed digit list, for the comma format
specifier of the source. -/
def comma_rev : List Char → List Char
  | [] => []
  | [a] => [a]
  | [a, b] => [a, b]
  | [a, b, c] => [a, b, c]
  | a :: b :: c :: d :: rest => a :: b :: c :: ',' :: comma_rev (d :: rest)

/-- Integer rendering with thousands separators. -/
def with_commas (n : Nat) : String :=
  String.mk ((comma_rev (toString n).data.reverse).reverse)

/-- Embeds _format_historical_data (llm_service.py lines 444-487) on the
integer price grid: the two degraded branches, then the last-15-day
slice, summary statistics and per-day lines. The percentage change is
carried in integer hundredths via integer division. -/
def format_historical_data (historical_data : Option HistData) : String :=
  match historical_data with
  | none => "No historical data available."
  | some h =>
    if h.dates = [] ∨ h.prices = [] ∨ h.dates.length < 5 ∨ h.prices.length < 5 then
      "Insufficient historical data available."
    else
      let recent_dates := h.dates.drop (h.dates.length - 15)
      let recent_prices := h.prices.drop (h.prices.length - 15)
      let recent_volumes :=
        if h.volumes ≠ [] ∧ 15 ≤ h.volumes.length then h.volumes.drop (h.volumes.length - 15)
        else []
      let current_price := recent_prices.getLast?.getD 0
      let prev_price := recent_prices.head?.getD 0
      let price_change :=
        if prev_price ≠ 0 then (current_price - prev_price) * 10000 / prev_price else 0
      let avg_volume :=
        if recent_volumes ≠ [] then recent_volumes.sum / recent_volumes.length else 0
      let daily := (List.range recent_dates.length).map (fun i =>
        if i < recent_prices.length then
          "- " ++ recent_dates.getD i "" ++ ": $" ++ fmt2 (recent_prices.getD i 0) ++
            " (Volume: " ++ with_commas (recent_volumes.getD i 0) ++ ")\n"
        else "")
      "Current Price: $" ++ fmt2 current_price ++
        "\nPrice Change (last 15 days): " ++ fmt_centi price_change ++
        "%\nAverage Daily Volume: " ++ with_commas avg_volume ++
        "\n\nDaily Prices (last 15 days):\n" ++ String.join daily

/-- Embeds _format_news_data (llm_service.py lines 489-519): newest
first, top five, numbered entries with source, date and summary. -/
def format_news_data (news_data : List Article) : String :=
  if news_data = [] then "No recent news available."
  else
    let sorted_news := sort_by_published_desc news_data
    let top_news := sorted_news.take 5
    String.join ((top_news.enum).map (fun p =>
      toString (p.fst + 1) ++ ". " ++ p.snd.title.getD "No title" ++
        "\n   Source: " ++ p.snd.source.getD "Unknown source" ++
        ", Published: " ++ p.snd.published.getD "Unknown date" ++
        "\n   Summary: " ++ p.snd.summary.getD "No summary available" ++ "\n\n"))

/-- Embeds _format_social_data (llm_service.py lines 521-567): the
aggregate metrics block and the top five posts by score, with the
150-character content snippet. -/
def format_social_data (social_data : Option SocialData) : String :=
  match social_data with
  | none => "No social media data available."
  | some s =>
    let sentiment_block :=
      match s.sentiment_summary with
      | none => ""
      | some ss =>
        "Overall Sentiment Metrics:\n" ++
        "- Average Post Polarity: " ++ fmt_centi (ss.avg_post_polarity.getD 0) ++ "\n" ++
        "- Average Post Subjectivity: " ++ fmt_centi (ss.avg_post_subjectivity.getD 0) ++ "\n" ++
        "- Average Comment Polarity: " ++ fmt_centi (ss.avg_comment_polarity.getD 0) ++ "\n" ++
        "- Average Comment Subjectivity: " ++ fmt_centi (ss.avg_comment_subjectivity.getD 0) ++ "\n" ++
        "- Total Posts Analyzed: " ++ toString (ss.post_count.getD 0) ++ "\n" ++
        "- Total Comments Analyzed: " ++ toString (ss.comment_count.getD 0) ++ "\n\n"
    let posts_block :=
      if s.posts = [] then ""
      else
        let sorted_posts := sort_by (fun a b => decide ((b.score.getD 0) ≤ (a.score.getD 0))) s.posts
        let top_posts := sorted_posts.take 5
        "Top Reddit Discussions:\n" ++ String.join ((top_posts.enum).map (fun p =>
          let content := p.snd.body.getD ""
          toString (p.fst + 1) ++ ". " ++ p.snd.title.getD "No title" ++
            "\n   Score: " ++ toString (p.snd.score.getD 0) ++
            ", Created: " ++ p.snd.created.getD "Unknown date" ++
            "\n   Sentiment: " ++ fmt_centi (p.snd.polarity.getD 0) ++ "\n" ++
            (if content ≠ "" then
              "   Content: " ++
                (if 150 < content.length then String.mk (content.data.take 150) ++ "..."
                 else content) ++ "\n\n"
             else "\n")))
    sentiment_block ++ posts_block

/-- One stored chat turn as returned by the history collaborator; the
symbol recorded in its metadata is carried alongside so that theorems can
speak about turns of other tickers. -/
structure ChatEntry where
  query : String
  response : String
  timestamp : Nat
  metadata_symbol : Option String
deriving DecidableEq

/-- Embeds format_chat_history_for_prompt (chat_history_service.py lines
60-83): stable sort newest first, keep max_entries, back to chronological
order, then user and assistant lines joined by blank lines. No filtering
by ticker happens here. -/
def format_chat_history_for_prompt (chat_history : List ChatEntry) (max_entries : Nat) : String :=
  let sorted_chats := sort_by (fun a b => decide (b.timestamp ≤ a.timestamp)) chat_history
  let recent_chats := (sorted_chats.take max_entries).reverse
  String.intercalate "\n\n"
    ((recent_chats.map (fun chat => ["User: " ++ chat.query, "Assistant: " ++ chat.response])).flatten)

/-- The history collaborator result (get_chat_history). -/
structure ChatSvc where
  status : String
  data : Option (List ChatEntry)
deriving DecidableEq

/-- The history limit the prompt builder requests (llm_service.py line
409). -/
def multistep_history_limit : Nat := 3

/-- Fixed template text of the multi-step prompt (llm_prompts.py lines
27-47), part before the current date. -/
def mp_lit1 : String :=
  "\nYou are FinanceGPT, a specialized stock market analysis assistant trained on financial data through 2025.\nToday is "

/-- Template text between the date and the symbol of the task line. -/
def mp_lit2 : String := ".\n\nTASK: Analyze the provided data for "

/-- Template text between the symbol and the quoted user query. -/
def mp_lit3 : String := " and answer the following user query: \""

/-- Template text between the query and the second symbol mention. -/
def mp_lit4 : String :=
  "\"\n\nI\x27ll provide you with three key sources of information:\n1. Historical stock data (prices, volumes, trends)\n2. Recent news articles relevant to "

/-- Template text between the second symbol mention and the historical
summary. -/
def mp_lit5 : String :=
  "\n3. Social media sentiment analysis from Reddit discussions\n\n===== HISTORICAL DATA =====\n"

/-- Template text between the historical and news summaries. -/
def mp_lit6 : String := "\n\n===== RECENT NEWS =====\n"

/-- Template text between the news and sentiment summaries. -/
def mp_lit7 : String := "\n\n===== SOCIAL MEDIA SENTIMENT =====\n"

/-- Template text closing the data sections. -/
def mp_lit8 : String := "\n\n"

/-- The conditional history heading (llm_prompts.py lines 49-53). -/
def mp_history_heading : String := "\n===== PREVIOUS CONVERSATION HISTORY =====\n"

/-- Fixed template text of the closing instructions (llm_prompts.py lines
55-74), part before the quoted user query. -/
def mp_tail1 : String :=
  "\n===== ANALYSIS INSTRUCTIONS =====\n1. Analyze the historical price data first - identify key trends, patterns, and anomalies\n2. Cross-reference price movements with news events - look for correlations\n3. Consider social media sentiment as a measure of market psychology\n4. Synthesize all three data sources to form a cohesive analysis\n5. Address the user\x27s specific query directly\n\n===== REQUIRED RESPONSE FORMAT =====\nRespond with the following sections:\n1. SUMMARY: A 2-3 sentence overall assessment\n2. PRICE ANALYSIS: Key insights from the price data (with specific numbers)\n3. NEWS IMPACT: How recent news might affect the stock\n4. SENTIMENT ANALYSIS: What the social media sentiment indicates\n5. PREDICTION: Direct answer to the user\x27s query \""

/-- Template text between the query and the final symbol mention. -/
def mp_tail2 : String :=
  "\"\n6. CONFIDENCE LEVEL: Your confidence in this prediction (Low/Medium/High) with explanation\n7. RISK FACTORS: At least 2 events or factors that could invalidate your prediction\n\nKeep your analysis professional, nuanced and data-driven. Avoid generic advice and be specific to "

/-- Template text ending the prompt. -/
def mp_tail3 : String := ".\n"

/-- The leading prompt part of get_multistep_prediction_prompt
(llm_prompts.py lines 27-47). -/
def multistep_prompt_header (symbol user_query historical_summary news_summary
    sentiment_summary current_date : String) : String :=
  mp_lit1 ++ current_date ++ mp_lit2 ++ symbol ++ mp_lit3 ++ user_query ++ mp_lit4 ++
    symbol ++ mp_lit5 ++ historical_summary ++ mp_lit6 ++ news_summary ++ mp_lit7 ++
    sentiment_summary ++ mp_lit8

/-- The closing instruction part of get_multistep_prediction_prompt
(llm_prompts.py lines 55-74). -/
def multistep_prompt_tail (symbol user_query : String) : String :=
  mp_tail1 ++ user_query ++ mp_tail2 ++ symbol ++ mp_tail3

/-- Embeds get_multistep_prediction_prompt (llm_prompts.py lines 6-76);
the current date is a parameter in place of datetime.now. -/
def get_multistep_prediction_prompt (symbol historical_summary news_summary
    sentiment_summary user_query chat_history current_date : String) : String :=
  multistep_prompt_header symbol user_query historical_summary news_summary
      sentiment_summary current_date ++
    (if chat_history ≠ "" then mp_history_heading ++ chat_history ++ "\n" else "") ++
    multistep_prompt_tail symbol user_query

/-- Embeds generate_multistep_prompt (llm_service.py lines 377-427); the
history collaborator response to the limit-3 request is a parameter, and
the history text is included only for a provided user with a successful,
truthy history result, exactly as in the source. -/
def generate_multistep_prompt (data : Record) (user_query : String)
    (user_id : Option String) (history_result : ChatSvc) (current_date : String) : String :=
  let symbol := data.symbol
  let historical_summary := format_historical_data data.historical
  let news_summary := format_news_data (data.news.getD [])
  let social_summary := format_social_data data.social
  let chat_history_text :=
    match user_id with
    | none => ""
    | some _ =>
      if history_result.status = "success" ∧ history_result.data.getD [] ≠ [] then
        format_chat_history_for_prompt (history_result.data.getD []) 5
      else ""
  get_multistep_prediction_prompt symbol historical_summary news_summary social_summary
    user_query chat_history_text current_date

/-- Concrete record for the context-builder counterexample: an AAPL
session with no accumulated data yet. -/
def c8_record : Record :=
  { symbol := "AAPL", user_query := "What about AAPL?", timestamp := "t0",
    historical := none, news := none, social := none }

/-- Concrete chat history for the counterexample: the only prior turn is
about TSLA, a different ticker than the session symbol. -/
def c8_history : List ChatEntry :=
  [{ query := "Will TSLA rise?", response := "TSLA target is 500.",
     timestamp := 1, metadata_symbol := some "TSLA" }]

/-- The labeled-block narrative of the repository test suite
(test_multistep_prediction_routes.py lines 364-373), the layout the
specification says the parser recognizes. -/
def c4_labeled_narrative : String :=
  "SUMMARY: Apple\x27s stock is likely to increase next week.\nPRICE ANALYSIS: Recent price trends show upward momentum.\nNEWS IMPACT: Positive earnings report will drive growth.\nSENTIMENT ANALYSIS: Social sentiment is overwhelmingly positive.\nPREDICTION: AAPL will increase by 5-7% next week.\nTARGET PRICE: $175.50\nCONFIDENCE LEVEL: High\nRISK FACTORS: Market volatility could impact performance."

/-- A narrative with two bare dollar amounts and no labels. -/
def c4_two_dollar_narrative : String :=
  "The stock trades at $150.00 today and could reach $175.50 next month."

/-! ## Theorems -/

/-- Taking at least the whole length of a list leaves it unchanged. -/
theorem take_eq_self_of_le {α : Type} : ∀ (l : List α) (n : Nat), l.length ≤ n → l.take n = l
  | [], _, _ => by simp
  | a :: as, 0, h => by simp at h
  | a :: as, Nat.succ n, h => by
    simp only [List.take_succ_cons, List.cons.injEq, true_and]
    exact take_eq_self_of_le as n (Nat.le_of_succ_le_succ (by simpa using h))

/-- Claim C9: every successful followup response carries an empty
target_price, because parse_llm_response never produces a target_price
key for any input: both of its result shapes answer none to that key. -/
theorem followup_target_price_always_empty (symbol user_query llm_response : String) :
    (followup_prediction_response symbol user_query llm_response).target_price = "" ∧
    (parse_llm_response llm_response).get "target_price" = none := by
  have h : (parse_llm_response llm_response).get "target_price" = none := by
    cases parse_llm_response llm_response <;> rfl
  exact ⟨by simp [followup_prediction_response, h], h⟩

set_option maxRecDepth 4096 in
/-- Claim C4 (code evaluation at the failing input): on the labeled-block
narrative of the repository test suite the parser recognizes nothing and
returns only full_response, with no target_price key; likewise for a
narrative with two bare dollar amounts, for which no second-amount
heuristic exists in the code. -/
theorem parse_target_price_label_ignored :
    parse_llm_response c4_labeled_narrative = .fullResponse c4_labeled_narrative ∧
    (parse_llm_response c4_labeled_narrative).get "target_price" = none ∧
    parse_llm_response c4_two_dollar_narrative = .fullResponse c4_two_dollar_narrative ∧
    (parse_llm_response c4_two_dollar_narrative).get "target_price" = none := by
  refine ⟨by decide, by decide, by decide, by decide⟩

/-- Claim C5: whenever neither extraction helper yields a non-empty
field, the parser returns exactly the single-field full_response shape
holding the original text, that key answers the original text, and the
followup processing of such a narrative is still a success result. -/
theorem parse_degrades_to_full_response (s symbol user_query : String)
    (hpa : extract_prediction_analysis_block s = ("", ""))
    (hpos : extract_block "Positive Developments" s = "")
    (hcon : extract_block "Potential Concerns" s = "") :
    parse_llm_response s = .fullResponse s ∧
    (parse_llm_response s).get "full_response" = some s ∧
    (process_followup_response symbol user_query s).status = "success" := by
  have h : parse_llm_response s = .fullResponse s := by
    simp [parse_llm_response, hpa, hpos, hcon]
  refine ⟨h, ?_, rfl⟩
  simp [h, ParsedResponse.get]

set_option maxRecDepth 4096 in
/-- Witness for C5 at the unstructured narrative of the repository test
suite. -/
theorem parse_degrades_to_full_response_witness :
    (extract_prediction_analysis_block
        "Apple stock might go up or down depending on market conditions." = ("", "") ∧
      extract_block "Positive Developments"
        "Apple stock might go up or down depending on market conditions." = "" ∧
      extract_block "Potential Concerns"
        "Apple stock might go up or down depending on market conditions." = "") ∧
    parse_llm_response "Apple stock might go up or down depending on market conditions." =
      .fullResponse "Apple stock might go up or down depending on market conditions." :=
  ⟨⟨by decide, by decide, by decide⟩,
    (parse_degrades_to_full_response _ "AAPL" "q" (by decide) (by decide) (by decide)).1⟩

/-- Claim C7: rerunning the historical stage for the same user and
ticker, even after the news and social stages populated the record,
stores a completely fresh record in which historical is set and the news
and social keys are absent. -/
theorem historical_rerun_resets_record (c0 : Cache) (u sym q q2 ts ts2 : String)
    (h h2 : HistData) (arts : List Article) (soc : SocialData) :
    (fetch_historical_store
        (fetch_social_store
          (fetch_news_store (fetch_historical_store c0 u sym q ts h) u sym arts)
          u sym soc)
        u sym q2 ts2 h2) (get_cache_key u sym) =
      some { symbol := sym, user_query := q2, timestamp := ts2,
             historical := some h2, news := none, social := none } := by
  simp [fetch_historical_store, cache_set]

/-- Claim C2: composing the three stage writes for one key within the
record lifetime leaves a record with all three fields populated, which
the result-stage gate accepts; and on any cached record with a missing
field the gate returns the client error naming exactly that field, in the
order the code checks them. -/
theorem result_stage_requires_all_fields (c : Cache) (u sym q ts : String)
    (h : HistData) (arts : List Article) (soc : SocialData) (r : Record) :
    generate_result_gate
        ((fetch_social_store
            (fetch_news_store (fetch_historical_store c u sym q ts h) u sym arts)
            u sym soc) (get_cache_key u sym)) =
      .ok { symbol := sym, user_query := q, timestamp := ts,
            historical := some h, news := some arts, social := some soc } ∧
    (r.historical = none →
      generate_result_gate (some r) =
        .error "Missing historical data. Please complete all steps.") ∧
    (r.historical ≠ none → r.news = none →
      generate_result_gate (some r) =
        .error "Missing news data. Please complete all steps.") ∧
    (r.historical ≠ none → r.news ≠ none → r.social = none →
      generate_result_gate (some r) =
        .error "Missing social media data. Please complete all steps.") := by
  refine ⟨?_, ?_, ?_, ?_⟩
  · simp [fetch_historical_store, fetch_news_store, fetch_social_store, cache_set,
      generate_result_gate]
  · intro h1
    simp [generate_result_gate, h1]
  · intro h1 h2
    simp [generate_result_gate, Option.isNone_iff_eq_none, h1, h2]
  · intro h1 h2 h3
    simp [generate_result_gate, Option.isNone_iff_eq_none, h1, h2, h3]

/-- Witness for C2: a concrete completed flow passes the gate, and
concrete records missing exactly one field draw the matching error. -/
theorem result_stage_requires_all_fields_witness :
    generate_result_gate
        ((fetch_social_store
            (fetch_news_store
              (fetch_historical_store (fun _ => none) "u1" "AAPL" "q" "t"
                { dates := ["d"], prices := [1], volumes := [2] })
              "u1" "AAPL" [])
            "u1" "AAPL" { posts := [], sentiment_summary := none })
          (get_cache_key "u1" "AAPL")) =
      .ok { symbol := "AAPL", user_query := "q", timestamp := "t",
            historical := some { dates := ["d"], prices := [1], volumes := [2] },
            news := some [], social := some { posts := [], sentiment_summary := none } } ∧
    generate_result_gate
        (some { symbol := "AAPL", user_query := "q", timestamp := "t",
                historical := some { dates := ["d"], prices := [1], volumes := [2] },
                news := none, social := none }) =
      .error "Missing news data. Please complete all steps." :=
  ⟨(result_stage_requires_all_fields (fun _ => none) "u1" "AAPL" "q" "t"
      { dates := ["d"], prices := [1], volumes := [2] } []
      { posts := [], sentiment_summary := none }
      { symbol := "AAPL", user_query := "q", timestamp := "t",
        historical := some { dates := ["d"], prices := [1], volumes := [2] },
        news := none, social := none }).1,
   (result_stage_requires_all_fields (fun _ => none) "u1" "AAPL" "q" "t"
      { dates := ["d"], prices := [1], volumes := [2] } []
      { posts := [], sentiment_summary := none }
      { symbol := "AAPL", user_query := "q", timestamp := "t",
        historical := some { dates := ["d"], prices := [1], volumes := [2] },
        news := none, social := none }).2.2.1 (by decide) rfl⟩

/-- Claim C3 (code evaluation at the failing input): the historical stage
passes the 3w period, which the price service does not recognize, so the
window falls through to the one-year default; a price dated 100 days back
survives the filter, while the 21-day window of the claim would drop it. -/
theorem historical_period_3w_is_365_days :
    get_historical_prices_start_days multistep_historical_period = 365 ∧
    get_historical_prices_start_days multistep_historical_period ≠ 21 ∧
    lookback_filter 1000 (get_historical_prices_start_days multistep_historical_period)
        [(900, 42)] = [(900, 42)] ∧
    lookback_filter 1000 21 [(900, 42)] = [] := by
  refine ⟨by decide, by decide, by decide, by decide⟩

/-- Claim C1: when the first semantic pass succeeds with at least one
item (the collaborator is queried with limit 5, so at most five come
back), the news stage answers with the semantic-search tag, exactly those
items formatted in the collaborator order, and the only collaborator call
made is that single semantic query: the Finnhub refresh is never
invoked. -/
theorem news_semantic_first_short_circuits (symbol : String) (sem1 sem2 fin2 fin1 : Svc)
    (items : List Article)
    (hstat : sem1.status = "success") (hdata : sem1.data = some items)
    (hlen : 1 ≤ items.length) (hlim : items.length ≤ 5) :
    (fetch_news_core symbol sem1 sem2 fin2 fin1).data_source = "semantic_search" ∧
    (fetch_news_core symbol sem1 sem2 fin2 fin1).articles = items.map format_article ∧
    (fetch_news_core symbol sem1 sem2 fin2 fin1).calls = [NewsCall.semantic] ∧
    (fetch_news_core symbol sem1 sem2 fin2 fin1).status = "success" := by
  have hok : sem_ok sem1 = true := by
    simp [sem_ok, hstat, hdata]
    omega
  have hcore : fetch_news_core symbol sem1 sem2 fin2 fin1 =
      news_response symbol "semantic_search" items [NewsCall.semantic] := by
    simp [fetch_news_core, hok, hdata]
  have harts : (news_response symbol "semantic_search" items [NewsCall.semantic]).articles =
      items.map format_article := by
    simp only [news_response]
    rw [if_neg (by simp)]
    rw [take_eq_self_of_le items 10 (le_trans hlim (by omega))]
  exact ⟨by rw [hcore]; rfl, by rw [hcore, harts], by rw [hcore]; rfl, by rw [hcore]; rfl⟩

/-- A concrete article for the news witnesses. -/
def sample_article : Article :=
  { title := some "Apple Reports Record Earnings",
    published := some "2023-01-02T14:30:00Z",
    source := some "TechNews",
    link := some "https://technews.com/apple-earnings",
    url := none,
    summary := some "Apple reported record earnings." }

/-- Witness for C1 at a one-item semantic result. -/
theorem news_semantic_first_short_circuits_witness :
    (({ status := "success", data := some [sample_article] } : Svc).status = "success" ∧
      ({ status := "success", data := some [sample_article] } : Svc).data =
        some [sample_article] ∧
      1 ≤ [sample_article].length ∧ [sample_article].length ≤ 5) ∧
    (fetch_news_core "AAPL" { status := "success", data := some [sample_article] }
        empty_svc empty_svc empty_svc).calls = [NewsCall.semantic] :=
  ⟨⟨rfl, rfl, by decide, by decide⟩,
    (news_semantic_first_short_circuits "AAPL" _ empty_svc empty_svc empty_svc
      [sample_article] rfl rfl (by decide) (by decide)).2.2.1⟩

/-- Claim C6: when both semantic passes report success with zero items
and both Finnhub fetches report success with zero items, the news stage
still answers with HTTP success, an empty article list, the none source
tag, and it writes the empty list into the stage record, so the flow can
proceed. -/
theorem news_exhausted_returns_empty_success (symbol : String) (sem1 sem2 fin2 fin1 : Svc)
    (h1s : sem1.status = "success") (h1 : sem1.data = some [])
    (h2s : sem2.status = "success") (h2 : sem2.data = some [])
    (h3s : fin2.status = "success") (h3 : fin2.data = some [])
    (h4s : fin1.status = "success") (h4 : fin1.data = some []) :
    (fetch_news_core symbol sem1 sem2 fin2 fin1).data_source = "none" ∧
    (fetch_news_core symbol sem1 sem2 fin2 fin1).articles = [] ∧
    (fetch_news_core symbol sem1 sem2 fin2 fin1).stored = [] ∧
    (fetch_news_core symbol sem1 sem2 fin2 fin1).status = "success" := by
  have hok1 : sem_ok sem1 = false := by simp [sem_ok, h1]
  have hfin2 : fin_ok fin2 = false := by simp [fin_ok, truthy_data, h3]
  have htr2 : truthy_data fin2 = false := by simp [truthy_data, h3]
  have hfin1 : fin_ok fin1 = false := by simp [fin_ok, truthy_data, h4]
  have hcore : fetch_news_core symbol sem1 sem2 fin2 fin1 =
      news_response symbol "none" []
        [NewsCall.semantic, NewsCall.finnhubFetch 2, NewsCall.finnhubFetch 1] := by
    simp [fetch_news_core, hok1, hfin2, htr2, hfin1]
  rw [hcore]
  refine ⟨rfl, ?_, rfl, rfl⟩
  simp [news_response]

/-- Witness for C6 with all four collaborator results empty. -/
theorem news_exhausted_returns_empty_success_witness :
    (empty_svc.status = "success" ∧ empty_svc.data = some []) ∧
    (fetch_news_core "AAPL" empty_svc empty_svc empty_svc empty_svc).data_source = "none" :=
  ⟨⟨rfl, rfl⟩,
    (news_exhausted_returns_empty_success "AAPL" empty_svc empty_svc empty_svc empty_svc
      rfl rfl rfl rfl rfl rfl rfl rfl).1⟩

/-- Claim C10: a semantic collaborator failure (an error status) is
handled exactly like an empty semantic result: the whole stage behaves
identically, the refresh fetch is reached, and the stage response is
still a success, never a surfaced server error. -/
theorem news_semantic_error_treated_as_empty (symbol : String) (sem1 sem2 fin2 fin1 : Svc)
    (herr : sem1.status = "error") :
    fetch_news_core symbol sem1 sem2 fin2 fin1 =
      fetch_news_core symbol empty_svc sem2 fin2 fin1 ∧
    (fetch_news_core symbol sem1 sem2 fin2 fin1).status = "success" ∧
    NewsCall.finnhubFetch 2 ∈ (fetch_news_core symbol sem1 sem2 fin2 fin1).calls := by
  have hok1 : sem_ok sem1 = false := by simp [sem_ok, herr]
  have hok2 : sem_ok empty_svc = false := by decide
  have heq : fetch_news_core symbol sem1 sem2 fin2 fin1 =
      fetch_news_core symbol empty_svc sem2 fin2 fin1 := by
    simp only [fetch_news_core, hok1, hok2, Bool.false_eq_true, if_false]
  refine ⟨heq, ?_, ?_⟩
  · simp only [fetch_news_core, hok1, Bool.false_eq_true, if_false]
    split
    · split <;> rfl
    · split
      · rfl
      · split <;> rfl
  · simp only [fetch_news_core, hok1, Bool.false_eq_true, if_false]
    split
    · split <;> simp [news_response]
    · split
      · simp [news_response]
      · split <;> simp [news_response]

/-- Witness for C10 at a failing semantic collaborator. -/
theorem news_semantic_error_treated_as_empty_witness :
    ({ status := "error", data := none } : Svc).status = "error" ∧
    fetch_news_core "AAPL" { status := "error", data := none } empty_svc empty_svc empty_svc =
      fetch_news_core "AAPL" empty_svc empty_svc empty_svc empty_svc :=
  ⟨rfl,
    (news_semantic_error_treated_as_empty "AAPL" { status := "error", data := none }
      empty_svc empty_svc empty_svc rfl).1⟩

set_option maxRecDepth 100000 in
set_option maxHeartbeats 1000000 in
/-- Claim C8 (amended): the prompt of the result stage embeds the chat
history returned by the collaborator for the user without any filtering
by ticker, formatted as user and assistant lines, under the conversation
history heading when non-empty; and the fixed template text contains no
instruction about contradicting previous predictions anywhere. -/
theorem multistep_prompt_includes_unfiltered_history (data : Record)
    (user_query uid current_date : String) (hist : List ChatEntry) (hr : ChatSvc)
    (hs : hr.status = "success") (hd : hr.data = some hist) (hne : hist ≠ []) :
    generate_multistep_prompt data user_query (some uid) hr current_date =
      get_multistep_prediction_prompt data.symbol (format_historical_data data.historical)
        (format_news_data (data.news.getD [])) (format_social_data data.social)
        user_query (format_chat_history_for_prompt hist 5) current_date ∧
    (format_chat_history_for_prompt hist 5 ≠ "" →
      generate_multistep_prompt data user_query (some uid) hr current_date =
        multistep_prompt_header data.symbol user_query
            (format_historical_data data.historical)
            (format_news_data (data.news.getD [])) (format_social_data data.social)
            current_date ++
          (mp_history_heading ++ format_chat_history_for_prompt hist 5 ++ "\n") ++
          multistep_prompt_tail data.symbol user_query) ∧
    contains_sub "contradict"
      (mp_lit1 ++ mp_lit2 ++ mp_lit3 ++ mp_lit4 ++ mp_lit5 ++ mp_lit6 ++ mp_lit7 ++
        mp_lit8 ++ mp_history_heading ++ mp_tail1 ++ mp_tail2 ++ mp_tail3) = false := by
  have h1 : generate_multistep_prompt data user_query (some uid) hr current_date =
      get_multistep_prediction_prompt data.symbol (format_historical_data data.historical)
        (format_news_data (data.news.getD [])) (format_social_data data.social)
        user_query (format_chat_history_for_prompt hist 5) current_date := by
    simp [generate_multistep_prompt, hs, hd, hne]
  refine ⟨h1, ?_, by decide⟩
  intro hne2
  rw [h1]
  simp [get_multistep_prediction_prompt, hne2]

/-- Witness for the amended C8 at the concrete TSLA-turn history. -/
theorem multistep_prompt_includes_unfiltered_history_witness :
    (({ status := "success", data := some c8_history } : ChatSvc).status = "success" ∧
      ({ status := "success", data := some c8_history } : ChatSvc).data = some c8_history ∧
      c8_history ≠ []) ∧
    generate_multistep_prompt c8_record "What about AAPL?" (some "u1")
        { status := "success", data := some c8_history } "January 1, 2026" =
      get_multistep_prediction_prompt c8_record.symbol
        (format_historical_data c8_record.historical)
        (format_news_data (c8_record.news.getD [])) (format_social_data c8_record.social)
        "What about AAPL?" (format_chat_history_for_prompt c8_history 5) "January 1, 2026" :=
  ⟨⟨rfl, rfl, by decide⟩,
    (multistep_prompt_includes_unfiltered_history c8_record "What about AAPL?" "u1"
      "January 1, 2026" c8_history _ rfl rfl (by decide)).1⟩

set_option maxRecDepth 100000 in
set_option maxHeartbeats 2000000 in
/-- Claim C8 (counterexample): with a history whose only turn is about a
different ticker than the session, the synthesis prompt still contains
that turn, so the history is not restricted to the same ticker; and the
prompt contains no occurrence of the word contradict, so no instruction
against contradicting prior predictions is prepended. -/
theorem multistep_prompt_ticker_filter_counterexample :
    c8_history.all (fun e => e.metadata_symbol ≠ some c8_record.symbol) = true ∧
    contains_sub "User: Will TSLA rise?"
      (generate_multistep_prompt c8_record "What about AAPL?" (some "u1")
        { status := "success", data := some c8_history } "January 1, 2026") = true ∧
    contains_sub "contradict"
      (generate_multistep_prompt c8_record "What about AAPL?" (some "u1")
        { status := "success", data := some c8_history } "January 1, 2026") = false := by
  refine ⟨by decide, by decide, by decide⟩
